import Mathlib

/-!
Shallow embedding of the sectioned screenshot capture engine of the
website-evaluator repository (screenshot module and `config.ts`), together
with theorems settling the specification claims about it.

Conventions of the embedding:
* pure computations of the source become Lean functions on `Nat`/`String`;
* the stateful browser pool becomes explicit state passing over `PoolState`;
* effects of the environment (an attempt's success or failure, the measured
  page height, timestamps, URL parsing) become explicit parameters, so every
  definition is executable on concrete inputs.
-/

namespace WebEval

/-! ## Viewport model (`config.ts`, `types.ts`) -/

/-- Embeds `ViewportConfig` from `types.ts`. -/
structure ViewportConfig where
  name : String
  width : Nat
  height : Nat
  sectionHeight : Nat
  overlap : Nat
deriving DecidableEq

/-- The `desktop` entry of `viewportConfigs` in `config.ts`. -/
def desktopViewport : ViewportConfig :=
  { name := "desktop", width := 1920, height := 1080, sectionHeight := 1050, overlap := 30 }

/-- The `mobile` entry of `viewportConfigs` in `config.ts`. -/
def mobileViewport : ViewportConfig :=
  { name := "mobile", width := 375, height := 812, sectionHeight := 792, overlap := 20 }

/-- The configured capture profiles, `viewportConfigs` in `config.ts`. -/
def viewportConfigs : List ViewportConfig := [desktopViewport, mobileViewport]

/-! ## Section capture geometry (`ScreenshotProcessor.captureViewportSections`)

`captureViewportSections` measures `totalHeight = document.body.scrollHeight`
once, computes `sectionsNeeded = Math.ceil(totalHeight / viewport.sectionHeight)`
and then, for `i` in `0 .. sectionsNeeded - 1` in increasing order, scrolls to
`y = i * viewport.sectionHeight` and captures one image. The measured height is
an environment input, so the geometry is a pure function of the viewport and
the height. -/

/-- Ceiling division on naturals: `Math.ceil(a / b)` for non-negative integer
`a` and positive integer `b`. -/
def natCeil (a b : Nat) : Nat := (a + b - 1) / b

/-- Number of sections captured by `captureViewportSections` for a page of
measured height `totalHeight`:
`Math.ceil(totalHeight / viewport.sectionHeight)`. -/
def sectionsNeeded (viewport : ViewportConfig) (totalHeight : Nat) : Nat :=
  natCeil totalHeight viewport.sectionHeight

/-- The scroll offsets used by `captureViewportSections`, in capture order:
for `i` in `0 .. sectionsNeeded - 1`, `scrollY = i * viewport.sectionHeight`. -/
def captureScrollOffsets (viewport : ViewportConfig) (totalHeight : Nat) : List Nat :=
  (List.range (sectionsNeeded viewport totalHeight)).map
    (fun i => i * viewport.sectionHeight)

/-! ## Result and target model (`types.ts`) -/

/-- Embeds the `status` field of `ScreenshotResult` from `types.ts`. -/
inductive ScreenshotStatus where
  | SUCCESS
  | FAILED
  | SKIPPED
deriving DecidableEq

/-- Embeds the `screenshotPaths` field of `ScreenshotResult`. -/
structure ScreenshotPaths where
  desktop : List String
  mobile : List String
deriving DecidableEq

/-- Embeds `ScreenshotResult` from `types.ts`. -/
structure ScreenshotResult where
  url : String
  domain : String
  companyName : String
  status : ScreenshotStatus
  desktopSections : Nat
  mobileSections : Nat
  loadTimeMs : Nat
  errorMessage : Option String
  retryCount : Nat
  timestamp : String
  screenshotPaths : ScreenshotPaths
deriving DecidableEq

/-- One work item of the orchestrator: the `{ url, companyName }` pairs
produced by `loadUrlsToProcess`. -/
structure UrlData where
  url : String
  companyName : String
deriving DecidableEq

/-- String rendering of a status, as written into the progress CSV. -/
def statusText : ScreenshotStatus → String
  | .SUCCESS => "SUCCESS"
  | .FAILED => "FAILED"
  | .SKIPPED => "SKIPPED"

/-- JavaScript `x || d` on an optional string: both a missing string and the
empty string are falsy and give the default. -/
def jsOr (x : Option String) (d : String) : String :=
  match x with
  | some s => if s = "" then d else s
  | none => d

/-- Embeds `ScreenshotProcessor.normalizeUrl`: prepend `https://` when the URL
does not start with `http`; no URL is ever rejected here. -/
def normalizeUrl (url : String) : String :=
  if url.startsWith "http" then url else "https://" ++ url

/-! ## Retry driver (`ScreenshotManager.processWithRetries`)

One iteration of the source loop runs `processor.processUrl`, which either
returns a `ScreenshotResult` (status `SUCCESS` or `FAILED`) or throws. The
environment's behaviour at each attempt is embedded as an explicit list of
`AttemptOutcome`s, one per attempt index starting at 0. The timestamp
(`dayjs().toISOString()`) and URL parsing (`extractDomain`, which uses the
platform `URL` class) are abstracted as parameters `ts` and `domainOf`. The
returned pair carries the final `ScreenshotResult` together with the number
of attempts actually made, the observable the claims speak about. -/

/-- What one call to `processor.processUrl` did: returned a result, or threw
with the given message. -/
inductive AttemptOutcome where
  | returned (r : ScreenshotResult)
  | thrown (msg : String)
deriving DecidableEq

/-- An attempt outcome counts as a failure when it threw or returned a result
whose status is not `SUCCESS`. -/
def isFailure : AttemptOutcome → Bool
  | .returned r => decide (r.status ≠ ScreenshotStatus.SUCCESS)
  | .thrown _ => true

/-- The `lastError` string the source loop records for a failed attempt:
`result.errorMessage || 'Unknown error'` for a returned failure, the thrown
message otherwise. -/
def failMsg : AttemptOutcome → String
  | .returned r => jsOr r.errorMessage "Unknown error"
  | .thrown msg => msg

/-- The result built after the retry loop exhausts all attempts
(the final return of `processWithRetries`). -/
def exhaustedResult (domainOf : String → String) (ts : String) (maxRetries : Nat)
    (ud : UrlData) (lastError : String) : ScreenshotResult :=
  { url := ud.url
    domain := domainOf ud.url
    companyName := ud.companyName
    status := .FAILED
    desktopSections := 0
    mobileSections := 0
    loadTimeMs := 0
    errorMessage :=
      some ("Failed after " ++ toString (maxRetries + 1) ++ " attempts: " ++ lastError)
    retryCount := maxRetries
    timestamp := ts
    screenshotPaths := { desktop := [], mobile := [] } }

/-- The retry loop of `processWithRetries`, one list element per remaining
attempt. `attempt` is the current attempt index, `lastError` the recorded
error of the previous failed attempt. Returns the final result and the total
number of attempts made. Backoff delays are timing only and are not modelled. -/
def runAttempts (domainOf : String → String) (ts : String) (maxRetries : Nat)
    (ud : UrlData) :
    List AttemptOutcome → Nat → String → ScreenshotResult × Nat
  | [], attempt, lastError => (exhaustedResult domainOf ts maxRetries ud lastError, attempt)
  | .returned r :: rest, attempt, lastError =>
    -- the source assigns `result.retryCount = attempt` and then checks
    -- `result.status`; the assignment leaves the status unchanged, so the
    -- check is written on `r` directly
    if r.status = ScreenshotStatus.SUCCESS then ({ r with retryCount := attempt }, attempt + 1)
    else runAttempts domainOf ts maxRetries ud rest (attempt + 1)
      (jsOr r.errorMessage "Unknown error")
  | .thrown msg :: rest, attempt, lastError =>
    runAttempts domainOf ts maxRetries ud rest (attempt + 1) msg

/-- Embeds `ScreenshotManager.processWithRetries`: the loop runs attempts
`0 .. maxRetries`, consuming at most `maxRetries + 1` outcomes. -/
def processWithRetries (domainOf : String → String) (ts : String) (maxRetries : Nat)
    (ud : UrlData) (outcomes : List AttemptOutcome) : ScreenshotResult × Nat :=
  runAttempts domainOf ts maxRetries ud (outcomes.take (maxRetries + 1)) 0 ""

/-- The `lastError` value after a list of failing outcomes has been consumed,
starting from `e`. -/
def lastErrAfter : List AttemptOutcome → String → String
  | [], e => e
  | oc :: rest, _ => lastErrAfter rest (failMsg oc)

/-! ## Browser pool (`BrowserPool`)

Browser process handles are embedded as numeric identifiers handed out by a
counter `nextId`; `launched` and `closed` record every identifier ever passed
to `chromium.launch` and `browser.close`, so that lifecycle claims are
expressible. `browsers` is the pool's owned array, `availableBrowsers` the
available array (a JS array used as a stack: push appends, pop removes the
last element), and `pageCounters` the `Map` of pages served per handle
(association list, newest binding first). `createBrowser` is modelled as
always succeeding; the source's catch-and-continue path on a failed relaunch
is an environment failure outside this embedding. -/

/-- Embeds `BrowserPoolConfig` from `types.ts`. -/
structure BrowserPoolConfig where
  maxBrowsers : Nat
  restartAfterPages : Nat
  launchTimeout : Nat
deriving DecidableEq

/-- The configured pool parameters, `browserPoolConfig` in `config.ts`. -/
def browserPoolConfig : BrowserPoolConfig :=
  { maxBrowsers := 2, restartAfterPages := 50, launchTimeout := 30000 }

/-- State of the browser pool. -/
structure PoolState where
  browsers : List Nat
  availableBrowsers : List Nat
  pageCounters : List (Nat × Nat)
  nextId : Nat
  launched : List Nat
  closed : List Nat
deriving DecidableEq

/-- Lookup in `pageCounters`: `this.pageCounters.get(browser) || 0`. -/
def counterOf (m : List (Nat × Nat)) (b : Nat) : Nat :=
  match m.find? (fun p => p.1 == b) with
  | some p => p.2
  | none => 0

/-- Update in `pageCounters`: `this.pageCounters.set(browser, v)`; the newest
binding shadows any older one. -/
def setCounter (m : List (Nat × Nat)) (b v : Nat) : List (Nat × Nat) :=
  (b, v) :: m

/-- Embeds `BrowserPool.initialize(concurrency)`: launches
`min(concurrency, maxBrowsers)` browsers, each with zero pages served, all
owned and available. -/
def initPool (cfg : BrowserPoolConfig) (concurrency : Nat) : PoolState :=
  let n := min concurrency cfg.maxBrowsers
  { browsers := List.range n
    availableBrowsers := List.range n
    pageCounters := (List.range n).map (fun i => (i, 0))
    nextId := n
    launched := List.range n
    closed := [] }

/-- Embeds `BrowserPool.getBrowser`. `none` models the busy-wait when no
browser is available. Otherwise the last available handle is popped; if its
page count has reached `restartAfterPages` it is closed and a fresh handle is
launched and returned in its place. Mirroring the source, the recycle branch
neither removes the closed handle from `browsers` nor adds the replacement
to it. -/
def getBrowser (cfg : BrowserPoolConfig) (s : PoolState) : Option (Nat × PoolState) :=
  match s.availableBrowsers.getLast? with
  | none => none
  | some b =>
    let s1 := { s with availableBrowsers := s.availableBrowsers.dropLast }
    let pageCount := counterOf s1.pageCounters b
    if cfg.restartAfterPages ≤ pageCount then
      let nb := s1.nextId
      some (nb, { s1 with
        nextId := nb + 1
        launched := nb :: s1.launched
        closed := b :: s1.closed
        pageCounters := setCounter s1.pageCounters nb 0 })
    else
      some (b, s1)

/-- Embeds `BrowserPool.releaseBrowser`: increment the handle's page count and
push it back onto the available array. -/
def releaseBrowser (s : PoolState) (b : Nat) : PoolState :=
  { s with
    pageCounters := setCounter s.pageCounters b (counterOf s.pageCounters b + 1)
    availableBrowsers := s.availableBrowsers ++ [b] }

/-- Embeds `BrowserPool.cleanup`: closes every browser in the owned array and
clears all pool structures. -/
def cleanupPool (s : PoolState) : PoolState :=
  { s with
    closed := s.closed ++ s.browsers
    browsers := []
    availableBrowsers := []
    pageCounters := [] }

/-! ## Progress store (`ProgressTracker`)

The progress CSV is embedded as a list of rows. Only the columns the
screenshot module reads or writes are modelled; the remaining columns of the
file are carried through every operation untouched, exactly like the modelled
untouched ones (`Company_Name`, `City`, `Original_URL`). -/

/-- Embeds the rows of `ScreenshotProgressData` that the screenshot module
touches. All CSV cells are strings. -/
structure CsvRow where
  Company_Name : String
  City : String
  Original_URL : String
  Discovered_Website : String
  Search_Status : String
  Screenshot_Status : String
  Desktop_Sections : String
  Mobile_Sections : String
  Screenshot_Error : String
  Load_Time_MS : String
  Screenshot_Retry_Count : String
  Screenshot_Timestamp : String
deriving DecidableEq

/-- The keys of the `processedUrls` map built by
`ProgressTracker.loadExistingProgress`: one entry per row whose
`Screenshot_Status` is `SUCCESS` and whose `Discovered_Website` is truthy
(non-empty). -/
def loadedSuccessUrls (rows : List CsvRow) : List String :=
  (rows.filter (fun row =>
    row.Screenshot_Status == "SUCCESS" && row.Discovered_Website != "")).map
    (fun row => row.Discovered_Website)

/-- Embeds `ProgressTracker.shouldSkipUrl`: `this.processedUrls.has(url)`. -/
def shouldSkipUrl (rows : List CsvRow) (url : String) : Bool :=
  decide (url ∈ loadedSuccessUrls rows)

/-- The `resultsMap` built by `updateCsvProgress`: a `Map` keyed by result
URL, so the last result with a given URL wins. -/
def lastResultFor (results : List ScreenshotResult) (url : String) :
    Option ScreenshotResult :=
  results.foldl (fun acc r => if r.url = url then some r else acc) none

/-- The in-place row mutation of `updateCsvProgress` for a row matched by a
result: the seven screenshot columns are overwritten, all other columns are
left as they were. -/
def updateRow (row : CsvRow) (res : ScreenshotResult) : CsvRow :=
  { row with
    Screenshot_Status := statusText res.status
    Desktop_Sections := toString res.desktopSections
    Mobile_Sections := toString res.mobileSections
    Screenshot_Error := jsOr res.errorMessage ""
    Load_Time_MS := toString res.loadTimeMs
    Screenshot_Retry_Count := toString res.retryCount
    Screenshot_Timestamp := res.timestamp }

/-- Embeds `ProgressTracker.updateCsvProgress`: every existing row whose
`Discovered_Website` matches a result in `resultsMap` is updated; rows with
no matching result are rewritten unchanged; no rows are added or removed. -/
def updateCsvProgress (results : List ScreenshotResult) (rows : List CsvRow) :
    List CsvRow :=
  rows.map (fun row =>
    match lastResultFor results row.Discovered_Website with
    | some res => updateRow row res
    | none => row)

/-- Embeds `ScreenshotManager.loadUrlsToProcess`: rows whose `Search_Status`
is `WEBSITE_DISCOVERED`, whose `Discovered_Website` is truthy, and which the
progress tracker does not skip. The tracker is loaded from the same CSV rows. -/
def loadUrlsToProcess (rows : List CsvRow) : List UrlData :=
  (rows.filter (fun row =>
    row.Search_Status == "WEBSITE_DISCOVERED" &&
    row.Discovered_Website != "" &&
    !shouldSkipUrl rows row.Discovered_Website)).map
    (fun row => { url := row.Discovered_Website, companyName := row.Company_Name })

/-! ## Orchestrator (`ScreenshotManager.processUrlsConcurrently`)

The work list is split into chunks of `concurrency` items
(`urlsToProcess.slice(i, i + concurrency)`); each chunk is processed with
`Promise.all(chunk.map(processUrl))`. The per-target closure `processUrl`
pushes its result into the shared `results` array on its normal path, and
then the chunk loop pushes the returned `chunkResults` into `results` again.
Capture itself is abstracted as a function from the target to its final
result; completion order inside a chunk is modelled as chunk order, which
fixes the order but not the multiset of accumulated results. -/

/-- The chunking loop `for (i = 0; i < n; i += concurrency)`. A zero
concurrency, under which the source loop would never terminate, yields no
chunks. -/
def chunksOf (n : Nat) (l : List UrlData) : List (List UrlData) :=
  if h : n = 0 ∨ l = [] then []
  else l.take n :: chunksOf n (l.drop n)
termination_by l.length
decreasing_by
  push_neg at h
  obtain ⟨hn, hl⟩ := h
  have : l.length ≠ 0 := by simpa using hl
  simp only [List.length_drop]
  omega

/-- Embeds `ScreenshotManager.processUrlsConcurrently` with capture abstracted
as `captureFn`. Each chunk contributes its results twice: once through the
pushes inside the `processUrl` closures, and once through
`results.push(...chunkResults)`. -/
def processUrlsConcurrently (captureFn : UrlData → ScreenshotResult)
    (concurrency : Nat) (urls : List UrlData) : List ScreenshotResult :=
  (chunksOf concurrency urls).foldl
    (fun acc chunk => acc ++ chunk.map captureFn ++ chunk.map captureFn) []

/-- The `successful` count of `ProgressTracker.generateSummaryReport`. -/
def successfulCount (results : List ScreenshotResult) : Nat :=
  (results.filter (fun r => decide (r.status = ScreenshotStatus.SUCCESS))).length

/-- The `failed` count of `ProgressTracker.generateSummaryReport`. -/
def failedCount (results : List ScreenshotResult) : Nat :=
  (results.filter (fun r => decide (r.status = ScreenshotStatus.FAILED))).length

/-! ## Concrete inputs used by counterexamples and witnesses -/

/-- A capture target whose URL is malformed. -/
def c3target : UrlData := { url := "not a url", companyName := "Acme d.o.o." }

/-- Three attempts that all throw the navigation error Playwright raises for a
malformed URL: a configuration/validation failure. -/
def c3outcomes : List AttemptOutcome :=
  List.replicate 3 (AttemptOutcome.thrown "Cannot navigate to invalid URL")

/-- Three attempts that all fail with a retryable timeout. -/
def timeoutOutcomes : List AttemptOutcome :=
  List.replicate 3 (AttemptOutcome.thrown "Timeout 30000ms exceeded")

/-- A target used to exercise the retry driver. -/
def slowTarget : UrlData := { url := "https://slow.example", companyName := "Slow Site" }

/-- A progress row whose `Screenshot_Status` is `SUCCESS` but whose
`Discovered_Website` cell is empty. -/
def c5emptyUrlRow : CsvRow :=
  { Company_Name := "Ghost LLC", City := "Nowhere", Original_URL := ""
    Discovered_Website := "", Search_Status := "WEBSITE_DISCOVERED"
    Screenshot_Status := "SUCCESS", Desktop_Sections := "3", Mobile_Sections := "2"
    Screenshot_Error := "", Load_Time_MS := "1200", Screenshot_Retry_Count := "0"
    Screenshot_Timestamp := "2024-01-01T00:00:00.000Z" }

/-- A progress row already captured successfully on an earlier run. -/
def c5successRow : CsvRow :=
  { Company_Name := "Done Co", City := "Trbovlje", Original_URL := ""
    Discovered_Website := "https://done.example", Search_Status := "WEBSITE_DISCOVERED"
    Screenshot_Status := "SUCCESS", Desktop_Sections := "4", Mobile_Sections := "3"
    Screenshot_Error := "", Load_Time_MS := "5100", Screenshot_Retry_Count := "0"
    Screenshot_Timestamp := "2024-01-01T00:00:00.000Z" }

/-- A progress row that failed on an earlier run and is due for re-attempt. -/
def c5failedRow : CsvRow :=
  { Company_Name := "Retry Co", City := "Celje", Original_URL := ""
    Discovered_Website := "https://retry.example", Search_Status := "WEBSITE_DISCOVERED"
    Screenshot_Status := "FAILED", Desktop_Sections := "0", Mobile_Sections := "0"
    Screenshot_Error := "Timeout 30000ms exceeded", Load_Time_MS := "30000"
    Screenshot_Retry_Count := "2", Screenshot_Timestamp := "2024-01-01T00:00:00.000Z" }

/-- A two-row progress file on a resumed run. -/
def c5rows : List CsvRow := [c5successRow, c5failedRow]

/-- A single capture target for the orchestrator. -/
def c6target : UrlData := { url := "https://example.com", companyName := "Example Inc" }

/-- A capture function that succeeds immediately on every target. -/
def c6capture : UrlData → ScreenshotResult := fun ud =>
  { url := ud.url, domain := "example.com", companyName := ud.companyName
    status := .SUCCESS, desktopSections := 2, mobileSections := 3, loadTimeMs := 4200
    errorMessage := none, retryCount := 0, timestamp := "2024-01-01T00:00:00.000Z"
    screenshotPaths :=
      { desktop := ["runs/run-1/screenshots/example.com/desktop/section-1.jpeg"]
        mobile := ["runs/run-1/screenshots/example.com/mobile/section-1.jpeg"] } }

/-- A result whose URL appears in no row of the progress file. -/
def c8orphanResult : ScreenshotResult :=
  { url := "https://orphan.example", domain := "orphan.example"
    companyName := "Orphan Co", status := .SUCCESS, desktopSections := 1
    mobileSections := 1, loadTimeMs := 900, errorMessage := none, retryCount := 0
    timestamp := "2024-01-02T00:00:00.000Z", screenshotPaths := { desktop := [], mobile := [] } }

/-- A progress row matched by `c8matchResult`. -/
def c8row : CsvRow :=
  { Company_Name := "Match Co", City := "Ptuj", Original_URL := ""
    Discovered_Website := "https://match.example", Search_Status := "WEBSITE_DISCOVERED"
    Screenshot_Status := "PENDING", Desktop_Sections := "", Mobile_Sections := ""
    Screenshot_Error := "", Load_Time_MS := "", Screenshot_Retry_Count := ""
    Screenshot_Timestamp := "" }

/-- A fresh capture result for the URL of `c8row`. -/
def c8matchResult : ScreenshotResult :=
  { url := "https://match.example", domain := "match.example"
    companyName := "Match Co", status := .FAILED, desktopSections := 0
    mobileSections := 0, loadTimeMs := 0, errorMessage := some "Timeout 30000ms exceeded"
    retryCount := 2, timestamp := "2024-01-03T00:00:00.000Z"
    screenshotPaths := { desktop := [], mobile := [] } }

/-- A pool configuration with a recycle threshold of one page, so that one
acquire/release round trip forces a recycle. -/
def cfg9 : BrowserPoolConfig :=
  { maxBrowsers := 2, restartAfterPages := 1, launchTimeout := 30000 }

/-- The pool state after `initPool cfg9 1` hands out browser 0. -/
def c9stateA : PoolState :=
  { browsers := [0], availableBrowsers := [], pageCounters := [(0, 0)]
    nextId := 1, launched := [0], closed := [] }

/-- The pool state after browser 0 is released and re-acquired: its page count
reached the threshold, so it was closed and replacement browser 1 was
launched; mirroring the source, `browsers` still holds only browser 0. -/
def c9stateB : PoolState :=
  { browsers := [0], availableBrowsers := [], pageCounters := [(1, 0), (0, 1), (0, 0)]
    nextId := 2, launched := [1, 0], closed := [0] }

/-- A pool state holding one browser whose page count sits exactly at the
configured recycle threshold of `browserPoolConfig`. -/
def c4state : PoolState :=
  { browsers := [0], availableBrowsers := [0], pageCounters := [(0, 50)]
    nextId := 1, launched := [0], closed := [] }

/-- First attempt of the C10 scenario: `processUrl` returned a `FAILED` result
that had already captured five desktop sections before failing. -/
def c10attempt1 : ScreenshotResult :=
  { url := "https://flaky.example", domain := "flaky.example"
    companyName := "Flaky Co", status := .FAILED, desktopSections := 5
    mobileSections := 2, loadTimeMs := 31000
    errorMessage := some "Navigation timeout of 30000 ms exceeded", retryCount := 0
    timestamp := "2024-01-04T00:00:00.000Z"
    screenshotPaths := { desktop := ["runs/run-1/screenshots/flaky.example/desktop/section-1.jpeg"], mobile := [] } }

/-- Third attempt of the C10 scenario: another `FAILED` result, with a
different error. -/
def c10attempt3 : ScreenshotResult :=
  { url := "https://flaky.example", domain := "flaky.example"
    companyName := "Flaky Co", status := .FAILED, desktopSections := 1
    mobileSections := 0, loadTimeMs := 12000
    errorMessage := some "SSL handshake failed", retryCount := 0
    timestamp := "2024-01-04T00:01:00.000Z"
    screenshotPaths := { desktop := [], mobile := [] } }

/-- Three failing attempts whose partial capture progress differs. -/
def c10outcomes : List AttemptOutcome :=
  [.returned c10attempt1, .thrown "net::ERR_CONNECTION_RESET", .returned c10attempt3]

/-- The flaky target of the C10 scenario. -/
def flakyTarget : UrlData := { url := "https://flaky.example", companyName := "Flaky Co" }

/-! ## Helper lemmas -/

/-- Indexing the scroll offset list: position `i` holds offset
`i * sectionHeight`. -/
theorem captureScrollOffsets_getElem (v : ViewportConfig) (H i : Nat)
    (h : i < sectionsNeeded v H) :
    (captureScrollOffsets v H)[i]? = some (i * v.sectionHeight) := by
  simp [captureScrollOffsets, List.getElem?_map, List.getElem?_range, h]

/-- The scroll offsets are strictly increasing whenever the stride is
positive. -/
theorem captureScrollOffsets_pairwise (v : ViewportConfig) (H : Nat)
    (hpos : 0 < v.sectionHeight) :
    (captureScrollOffsets v H).Pairwise (· < ·) := by
  unfold captureScrollOffsets
  rw [List.pairwise_map]
  exact (List.pairwise_lt_range _).imp (fun hab => by
    exact Nat.mul_lt_mul_of_lt_of_le hab (Nat.le_refl _) hpos)

/-- The embedding of `Math.ceil(a / b)` agrees with Mathlib's ceiling
division on naturals. -/
theorem natCeil_eq_ceilDiv (a b : Nat) : natCeil a b = a ⌈/⌉ b :=
  (Nat.ceilDiv_eq_add_pred_div a b).symm

/-- Characterization of the section count as a true ceiling: it is the least
`c` with `a ≤ b * c`. -/
theorem natCeil_le_iff (a b c : Nat) (hb : 0 < b) : natCeil a b ≤ c ↔ a ≤ b * c := by
  rw [natCeil_eq_ceilDiv]
  exact ceilDiv_le_iff_le_mul hb

/-- Every member of `viewportConfigs` satisfies the stride invariant
`sectionHeight = height - overlap` with a positive stride. -/
theorem viewportConfigs_stride (v : ViewportConfig) (hv : v ∈ viewportConfigs) :
    v.sectionHeight = v.height - v.overlap ∧ 0 < v.sectionHeight := by
  rcases (by simpa [viewportConfigs] using hv :
    v = desktopViewport ∨ v = mobileViewport) with rfl | rfl <;> exact ⟨rfl, by decide⟩

/-! ## Claim theorems -/

/-- Claim C1: for every configured viewport profile and every measured content
height `H`, `captureViewportSections` computes
`sectionCount = ceil(H / sectionStride)` where the stride is the viewport
height minus the overlap (the configured `sectionHeight`); section `i` is
captured after scrolling to offset `i * sectionStride`; and the sections are
captured in strictly increasing order of scroll offset. -/
theorem c1_section_geometry (v : ViewportConfig) (hv : v ∈ viewportConfigs) (H : Nat) :
    v.sectionHeight = v.height - v.overlap ∧
    sectionsNeeded v H = natCeil H (v.height - v.overlap) ∧
    (∀ i, i < sectionsNeeded v H →
      (captureScrollOffsets v H)[i]? = some (i * (v.height - v.overlap))) ∧
    (captureScrollOffsets v H).Pairwise (· < ·) := by
  obtain ⟨hstride, hpos⟩ := viewportConfigs_stride v hv
  refine ⟨hstride, by rw [sectionsNeeded, hstride], ?_, ?_⟩
  · intro i hi
    rw [← hstride]
    exact captureScrollOffsets_getElem v H i hi
  · exact captureScrollOffsets_pairwise v H hpos

/-- Witness for C1 at the desktop profile and a page 2050 pixels tall. -/
theorem c1_section_geometry_witness :
    desktopViewport ∈ viewportConfigs ∧
    (desktopViewport.sectionHeight = desktopViewport.height - desktopViewport.overlap ∧
      sectionsNeeded desktopViewport 2050 =
        natCeil 2050 (desktopViewport.height - desktopViewport.overlap) ∧
      (∀ i, i < sectionsNeeded desktopViewport 2050 →
        (captureScrollOffsets desktopViewport 2050)[i]? =
          some (i * (desktopViewport.height - desktopViewport.overlap))) ∧
      (captureScrollOffsets desktopViewport 2050).Pairwise (· < ·)) :=
  ⟨by decide, c1_section_geometry desktopViewport (by decide) 2050⟩

/-- Claim C7 counterexample: a desktop page 1060 pixels tall is shorter than
one viewport (1080) yet yields two sections, not one, because the stride is
1050. -/
theorem c7_short_page_counterexample :
    1060 < desktopViewport.height ∧ sectionsNeeded desktopViewport 1060 = 2 := by
  decide

/-- Claim C7 as amended: for every configured viewport profile, a page whose
measured content height is positive and at most the section stride yields
exactly one section. (As stated the claim fails: a height of zero yields zero
sections, and a height strictly between the stride and the viewport height
yields two.) -/
theorem c7_short_page_amended (v : ViewportConfig) (hv : v ∈ viewportConfigs)
    (H : Nat) (h1 : 0 < H) (h2 : H ≤ v.sectionHeight) :
    sectionsNeeded v H = 1 := by
  rcases (by simpa [viewportConfigs] using hv :
    v = desktopViewport ∨ v = mobileViewport) with rfl | rfl <;>
    · simp only [sectionsNeeded, natCeil, desktopViewport, mobileViewport] at h2 ⊢
      omega

/-- Witness for the amended C7 at the mobile profile and a 500 pixel page. -/
theorem c7_short_page_amended_witness :
    mobileViewport ∈ viewportConfigs ∧ 0 < 500 ∧ 500 ≤ mobileViewport.sectionHeight ∧
    sectionsNeeded mobileViewport 500 = 1 :=
  ⟨by decide, by decide, by decide,
    c7_short_page_amended mobileViewport (by decide) 500 (by decide) (by decide)⟩

/-- Running the retry loop over a failing prefix advances the attempt counter
and the recorded error without finishing. -/
theorem runAttempts_append_fail (domainOf : String → String) (ts : String)
    (maxRetries : Nat) (ud : UrlData) (l₁ : List AttemptOutcome) :
    ∀ (l₂ : List AttemptOutcome) (attempt : Nat) (lastError : String),
      (∀ oc ∈ l₁, isFailure oc = true) →
      runAttempts domainOf ts maxRetries ud (l₁ ++ l₂) attempt lastError =
        runAttempts domainOf ts maxRetries ud l₂ (attempt + l₁.length)
          (lastErrAfter l₁ lastError) := by
  induction l₁ with
  | nil => intro l₂ attempt lastError _; simp [lastErrAfter]
  | cons oc rest ih =>
    intro l₂ attempt lastError h
    have hoc : isFailure oc = true := h oc (by simp)
    have hrest : ∀ o ∈ rest, isFailure o = true := fun o ho => h o (by simp [ho])
    cases oc with
    | returned r =>
      have hstatus : r.status ≠ ScreenshotStatus.SUCCESS := by
        simpa [isFailure] using hoc
      rw [List.cons_append, runAttempts, if_neg hstatus,
        ih l₂ (attempt + 1) (jsOr r.errorMessage "Unknown error") hrest,
        lastErrAfter, failMsg, List.length_cons,
        show attempt + (rest.length + 1) = attempt + 1 + rest.length from by omega]
    | thrown msg =>
      rw [List.cons_append, runAttempts,
        ih l₂ (attempt + 1) msg hrest,
        lastErrAfter, failMsg, List.length_cons,
        show attempt + (rest.length + 1) = attempt + 1 + rest.length from by omega]

/-- Running the retry loop over a list of failing outcomes exhausts them all
and returns the exhausted-retries result. -/
theorem runAttempts_all_fail (domainOf : String → String) (ts : String)
    (maxRetries : Nat) (ud : UrlData) (l : List AttemptOutcome)
    (attempt : Nat) (lastError : String) (h : ∀ oc ∈ l, isFailure oc = true) :
    runAttempts domainOf ts maxRetries ud l attempt lastError =
      (exhaustedResult domainOf ts maxRetries ud (lastErrAfter l lastError),
        attempt + l.length) := by
  have := runAttempts_append_fail domainOf ts maxRetries ud l [] attempt lastError h
  rw [List.append_nil] at this
  rw [this, runAttempts]

/-- The attempt counter never decreases. -/
theorem runAttempts_snd_ge (domainOf : String → String) (ts : String)
    (maxRetries : Nat) (ud : UrlData) (l : List AttemptOutcome) :
    ∀ (attempt : Nat) (lastError : String),
      attempt ≤ (runAttempts domainOf ts maxRetries ud l attempt lastError).2 := by
  induction l with
  | nil => intro attempt lastError; exact Nat.le_refl _
  | cons oc rest ih =>
    intro attempt lastError
    cases oc with
    | returned r =>
      rw [runAttempts]
      split
      · exact Nat.le_succ _
      · exact Nat.le_trans (Nat.le_succ _) (ih (attempt + 1) _)
    | thrown msg =>
      rw [runAttempts]
      exact Nat.le_trans (Nat.le_succ _) (ih (attempt + 1) _)

/-- As long as outcomes remain, at least one further attempt is made. -/
theorem runAttempts_snd_gt_of_ne_nil (domainOf : String → String) (ts : String)
    (maxRetries : Nat) (ud : UrlData) (l : List AttemptOutcome) (hl : l ≠ [])
    (attempt : Nat) (lastError : String) :
    attempt + 1 ≤ (runAttempts domainOf ts maxRetries ud l attempt lastError).2 := by
  cases l with
  | nil => exact absurd rfl hl
  | cons oc rest =>
    cases oc with
    | returned r =>
      rw [runAttempts]
      split
      · exact Nat.le_refl _
      · exact runAttempts_snd_ge domainOf ts maxRetries ud rest (attempt + 1) _
    | thrown msg =>
      rw [runAttempts]
      exact runAttempts_snd_ge domainOf ts maxRetries ud rest (attempt + 1) msg

/-- The recorded error after a failing run is the error of the last outcome. -/
theorem lastErrAfter_getLast (l : List AttemptOutcome) (oc : AttemptOutcome) :
    ∀ (e : String), l.getLast? = some oc → lastErrAfter l e = failMsg oc := by
  induction l with
  | nil => intro e h; simp at h
  | cons a rest ih =>
    intro e h
    cases rest with
    | nil =>
      simp only [List.getLast?_singleton, Option.some.injEq] at h
      subst h
      rfl
    | cons b t =>
      rw [List.getLast?_cons_cons] at h
      rw [lastErrAfter]
      exact ih (failMsg a) h

/-- Claim C2: when every attempt fails, the retry driver makes exactly
`maxRetries + 1` attempts and the final result has status `FAILED` and
`retryCount = maxRetries`. -/
theorem c2_retry_exhaustion (domainOf : String → String) (ts : String)
    (maxRetries : Nat) (ud : UrlData) (outcomes : List AttemptOutcome)
    (hlen : maxRetries + 1 ≤ outcomes.length)
    (hfail : ∀ oc ∈ outcomes, isFailure oc = true) :
    (processWithRetries domainOf ts maxRetries ud outcomes).2 = maxRetries + 1 ∧
    (processWithRetries domainOf ts maxRetries ud outcomes).1.status =
      ScreenshotStatus.FAILED ∧
    (processWithRetries domainOf ts maxRetries ud outcomes).1.retryCount = maxRetries := by
  have htake : ∀ oc ∈ outcomes.take (maxRetries + 1), isFailure oc = true :=
    fun oc hoc => hfail oc (List.take_subset _ _ hoc)
  have hlength : (outcomes.take (maxRetries + 1)).length = maxRetries + 1 := by
    rw [List.length_take]
    omega
  rw [processWithRetries,
    runAttempts_all_fail domainOf ts maxRetries ud _ 0 "" htake]
  exact ⟨by simp [hlength], rfl, rfl⟩

/-- Witness for C2: `maxRetries = 2` and three timeout failures give exactly
three attempts, a `FAILED` result, and `retryCount = 2`. -/
theorem c2_retry_exhaustion_witness :
    2 + 1 ≤ timeoutOutcomes.length ∧
    (∀ oc ∈ timeoutOutcomes, isFailure oc = true) ∧
    ((processWithRetries (fun _ => "slow.example") "2024-01-05T00:00:00.000Z" 2
        slowTarget timeoutOutcomes).2 = 2 + 1 ∧
      (processWithRetries (fun _ => "slow.example") "2024-01-05T00:00:00.000Z" 2
        slowTarget timeoutOutcomes).1.status = ScreenshotStatus.FAILED ∧
      (processWithRetries (fun _ => "slow.example") "2024-01-05T00:00:00.000Z" 2
        slowTarget timeoutOutcomes).1.retryCount = 2) :=
  ⟨by decide, by decide,
    c2_retry_exhaustion (fun _ => "slow.example") "2024-01-05T00:00:00.000Z" 2
      slowTarget timeoutOutcomes (by decide) (by decide)⟩

/-- Claim C3 counterexample: every attempt fails with the malformed-URL
navigation error, a configuration/validation failure, yet the retry driver
still makes all three attempts (`maxRetries = 2`); the claim says such a
failure is terminal, which would mean a single attempt. -/
theorem c3_terminal_counterexample :
    (processWithRetries (fun _ => "invalid-domain") "2024-01-05T00:00:00.000Z" 2
      c3target c3outcomes).2 = 3 := by
  decide

/-- Claim C3 as amended: the retry driver draws no retryable/terminal
distinction at all — after any failing attempt, configuration/validation
errors included, it keeps retrying while attempts remain below `maxRetries`.
Formally: if attempts `0 .. i` all fail and `i < maxRetries`, strictly more
than `i + 1` attempts are made. -/
theorem c3_no_terminal_failures (domainOf : String → String) (ts : String)
    (maxRetries : Nat) (ud : UrlData) (outcomes : List AttemptOutcome) (i : Nat)
    (hi : i < maxRetries)
    (hlen : maxRetries + 1 ≤ outcomes.length)
    (hfail : ∀ oc ∈ outcomes.take (i + 1), isFailure oc = true) :
    i + 1 < (processWithRetries domainOf ts maxRetries ud outcomes).2 := by
  set t := outcomes.take (maxRetries + 1) with ht
  have htlen : t.length = maxRetries + 1 := by
    rw [ht, List.length_take]
    omega
  have htake : t.take (i + 1) = outcomes.take (i + 1) := by
    rw [ht, List.take_take]
    congr 1
    omega
  have hsplit : t = t.take (i + 1) ++ t.drop (i + 1) := (List.take_append_drop _ _).symm
  have hfail' : ∀ oc ∈ t.take (i + 1), isFailure oc = true := by
    rw [htake]
    exact hfail
  have hlen1 : (t.take (i + 1)).length = i + 1 := by
    rw [List.length_take]
    omega
  have hne : t.drop (i + 1) ≠ [] := by
    intro hcon
    have := congrArg List.length hcon
    rw [List.length_drop] at this
    simp at this
    omega
  rw [processWithRetries, ← ht, hsplit,
    runAttempts_append_fail domainOf ts maxRetries ud _ _ 0 "" hfail', hlen1]
  have := runAttempts_snd_gt_of_ne_nil domainOf ts maxRetries ud _ hne (0 + (i + 1))
    (lastErrAfter (t.take (i + 1)) "")
  omega

/-- Witness for the amended C3: the first failing attempt on the malformed
URL is followed by further attempts. -/
theorem c3_no_terminal_failures_witness :
    0 < 2 ∧ 2 + 1 ≤ c3outcomes.length ∧
    (∀ oc ∈ c3outcomes.take (0 + 1), isFailure oc = true) ∧
    0 + 1 < (processWithRetries (fun _ => "invalid-domain") "2024-01-05T00:00:00.000Z" 2
      c3target c3outcomes).2 :=
  ⟨by decide, by decide, by decide,
    c3_no_terminal_failures (fun _ => "invalid-domain") "2024-01-05T00:00:00.000Z" 2
      c3target c3outcomes 0 (by decide) (by decide) (by decide)⟩

/-- Claim C10: when retries are exhausted, the final `FAILED` result zeroes
the section counts, the load time and both screenshot path lists — whatever
partial progress earlier attempts had made — and its error message is derived
solely from the last attempt's error. -/
theorem c10_exhausted_result_fields (domainOf : String → String) (ts : String)
    (maxRetries : Nat) (ud : UrlData) (outcomes : List AttemptOutcome)
    (oc : AttemptOutcome)
    (hlen : maxRetries + 1 ≤ outcomes.length)
    (hfail : ∀ o ∈ outcomes, isFailure o = true)
    (hlast : outcomes[maxRetries]? = some oc) :
    (processWithRetries domainOf ts maxRetries ud outcomes).1.desktopSections = 0 ∧
    (processWithRetries domainOf ts maxRetries ud outcomes).1.mobileSections = 0 ∧
    (processWithRetries domainOf ts maxRetries ud outcomes).1.loadTimeMs = 0 ∧
    (processWithRetries domainOf ts maxRetries ud outcomes).1.screenshotPaths =
      { desktop := [], mobile := [] } ∧
    (processWithRetries domainOf ts maxRetries ud outcomes).1.errorMessage =
      some ("Failed after " ++ toString (maxRetries + 1) ++ " attempts: " ++ failMsg oc) := by
  have htake : ∀ o ∈ outcomes.take (maxRetries + 1), isFailure o = true :=
    fun o ho => hfail o (List.take_subset _ _ ho)
  have hlength : (outcomes.take (maxRetries + 1)).length = maxRetries + 1 := by
    rw [List.length_take]
    omega
  have hlast' : (outcomes.take (maxRetries + 1)).getLast? = some oc := by
    rw [List.getLast?_eq_getElem?, hlength, Nat.add_sub_cancel,
      List.getElem?_take_of_lt (Nat.lt_succ_self _)]
    exact hlast
  rw [processWithRetries,
    runAttempts_all_fail domainOf ts maxRetries ud _ 0 "" htake,
    lastErrAfter_getLast _ oc _ hlast']
  exact ⟨rfl, rfl, rfl, rfl, rfl⟩

/-- Witness for C10: three failing attempts, the first of which had already
captured five desktop sections; the exhausted result is still fully zeroed
and carries only the last attempt's error. -/
theorem c10_exhausted_result_fields_witness :
    2 + 1 ≤ c10outcomes.length ∧
    (∀ o ∈ c10outcomes, isFailure o = true) ∧
    c10outcomes[2]? = some (AttemptOutcome.returned c10attempt3) ∧
    ((processWithRetries (fun _ => "flaky.example") "2024-01-05T00:00:00.000Z" 2
        flakyTarget c10outcomes).1.desktopSections = 0 ∧
      (processWithRetries (fun _ => "flaky.example") "2024-01-05T00:00:00.000Z" 2
        flakyTarget c10outcomes).1.mobileSections = 0 ∧
      (processWithRetries (fun _ => "flaky.example") "2024-01-05T00:00:00.000Z" 2
        flakyTarget c10outcomes).1.loadTimeMs = 0 ∧
      (processWithRetries (fun _ => "flaky.example") "2024-01-05T00:00:00.000Z" 2
        flakyTarget c10outcomes).1.screenshotPaths =
        { desktop := [], mobile := [] } ∧
      (processWithRetries (fun _ => "flaky.example") "2024-01-05T00:00:00.000Z" 2
        flakyTarget c10outcomes).1.errorMessage =
        some ("Failed after " ++ toString (2 + 1) ++ " attempts: " ++
          failMsg (AttemptOutcome.returned c10attempt3))) :=
  ⟨by decide, by decide, by decide,
    c10_exhausted_result_fields (fun _ => "flaky.example") "2024-01-05T00:00:00.000Z" 2
      flakyTarget c10outcomes (AttemptOutcome.returned c10attempt3)
      (by decide) (by decide) (by decide)⟩

/-- Claim C4: releasing a handle increments its page count by one and returns
it to the available set; an acquire that pops a handle at or above the
recycle threshold closes it and returns a freshly launched replacement with
zero pages served; and, whenever the threshold is positive, no caller ever
receives a handle whose page count has reached the threshold. -/
theorem c4_pool_recycling (cfg : BrowserPoolConfig) (s : PoolState) (b : Nat)
    (hpos : 0 < cfg.restartAfterPages) :
    (counterOf (releaseBrowser s b).pageCounters b = counterOf s.pageCounters b + 1 ∧
      b ∈ (releaseBrowser s b).availableBrowsers) ∧
    (∀ h : Nat, s.availableBrowsers.getLast? = some h →
      cfg.restartAfterPages ≤ counterOf s.pageCounters h →
      ∃ s' : PoolState, getBrowser cfg s = some (s.nextId, s') ∧
        counterOf s'.pageCounters s.nextId = 0 ∧
        s.nextId ∈ s'.launched ∧ h ∈ s'.closed) ∧
    (∀ (h : Nat) (s' : PoolState), getBrowser cfg s = some (h, s') →
      counterOf s'.pageCounters h < cfg.restartAfterPages) := by
  refine ⟨⟨?_, ?_⟩, ?_, ?_⟩
  · simp [releaseBrowser, counterOf, setCounter]
  · simp [releaseBrowser]
  · intro h hlast hthresh
    refine ⟨{ s with
        availableBrowsers := s.availableBrowsers.dropLast
        nextId := s.nextId + 1
        launched := s.nextId :: s.launched
        closed := h :: s.closed
        pageCounters := setCounter s.pageCounters s.nextId 0 }, ?_, ?_, ?_, ?_⟩
    · simp [getBrowser, hlast, hthresh]
    · simp [counterOf, setCounter]
    · simp
    · simp
  · intro h s' hget
    cases hlast : s.availableBrowsers.getLast? with
    | none => simp [getBrowser, hlast] at hget
    | some b0 =>
      simp only [getBrowser, hlast] at hget
      split at hget
      · simp only [Option.some.injEq, Prod.mk.injEq] at hget
        obtain ⟨hb, hs⟩ := hget
        subst hb
        rw [← hs]
        simpa [counterOf, setCounter] using hpos
      · rename_i hthresh
        simp only [Option.some.injEq, Prod.mk.injEq] at hget
        obtain ⟨hb, hs⟩ := hget
        subst hb
        rw [← hs]
        simp only [not_le] at hthresh
        exact hthresh

/-- Witness for C4 at the configured pool parameters and a one-browser state
whose page count sits exactly at the threshold of 50. -/
theorem c4_pool_recycling_witness :
    0 < browserPoolConfig.restartAfterPages ∧
    ((counterOf (releaseBrowser c4state 0).pageCounters 0 =
        counterOf c4state.pageCounters 0 + 1 ∧
      0 ∈ (releaseBrowser c4state 0).availableBrowsers) ∧
    (∀ h : Nat, c4state.availableBrowsers.getLast? = some h →
      browserPoolConfig.restartAfterPages ≤ counterOf c4state.pageCounters h →
      ∃ s' : PoolState, getBrowser browserPoolConfig c4state = some (c4state.nextId, s') ∧
        counterOf s'.pageCounters c4state.nextId = 0 ∧
        c4state.nextId ∈ s'.launched ∧ h ∈ s'.closed) ∧
    (∀ (h : Nat) (s' : PoolState), getBrowser browserPoolConfig c4state = some (h, s') →
      counterOf s'.pageCounters h < browserPoolConfig.restartAfterPages)) :=
  ⟨by decide, c4_pool_recycling browserPoolConfig c4state 0 (by decide)⟩

/-- Claim C9 exhibit: with a recycle threshold of one, browser 0 is acquired,
released and re-acquired; the re-acquire recycles it and hands out the
freshly launched browser 1. Browser 1 was launched by the pool, yet after a
full `cleanup` it was never closed — the recycle path of `getBrowser` does
not add the replacement to the pool's `browsers` array, so shutdown misses
it. This contradicts the claim that every launched browser is owned and
closed at shutdown. -/
theorem c9_replacement_leak :
    getBrowser cfg9 (initPool cfg9 1) = some (0, c9stateA) ∧
    getBrowser cfg9 (releaseBrowser c9stateA 0) = some (1, c9stateB) ∧
    1 ∈ (cleanupPool (releaseBrowser c9stateB 1)).launched ∧
    1 ∉ (cleanupPool (releaseBrowser c9stateB 1)).closed ∧
    1 ∉ (cleanupPool (releaseBrowser c9stateB 1)).browsers := by
  decide

/-- Claim C5 counterexample: the progress store holds a `SUCCESS` record whose
URL is the empty string, yet `shouldSkip` returns `false` for that URL —
`loadExistingProgress` only loads rows whose `Discovered_Website` is truthy. -/
theorem c5_skip_counterexample :
    shouldSkipUrl [c5emptyUrlRow] "" = false ∧
    c5emptyUrlRow.Screenshot_Status = "SUCCESS" ∧
    c5emptyUrlRow.Discovered_Website = "" := by
  decide

/-- Claim C5 as amended: for every non-empty URL, `shouldSkip(url)` returns
true iff the loaded progress store contains a `SUCCESS` record for that URL
(records with an empty URL cell are ignored at load time); consequently no
target with a `SUCCESS` record is ever passed to capture again, while
eligible targets with `FAILED` records are re-attempted. -/
theorem c5_skip_on_success (rows : List CsvRow) :
    (∀ url : String, url ≠ "" →
      (shouldSkipUrl rows url = true ↔
        ∃ row ∈ rows, row.Screenshot_Status = "SUCCESS" ∧
          row.Discovered_Website = url)) ∧
    (∀ row ∈ rows, row.Screenshot_Status = "SUCCESS" → row.Discovered_Website ≠ "" →
      ∀ ud ∈ loadUrlsToProcess rows, ud.url ≠ row.Discovered_Website) ∧
    (∀ row ∈ rows, row.Search_Status = "WEBSITE_DISCOVERED" →
      row.Discovered_Website ≠ "" → row.Screenshot_Status = "FAILED" →
      (¬ ∃ row' ∈ rows, row'.Screenshot_Status = "SUCCESS" ∧
        row'.Discovered_Website = row.Discovered_Website) →
      ∃ ud ∈ loadUrlsToProcess rows, ud.url = row.Discovered_Website) := by
  have hmem : ∀ url : String, shouldSkipUrl rows url = true ↔
      ∃ row, row ∈ rows ∧ row.Screenshot_Status = "SUCCESS" ∧
        row.Discovered_Website ≠ "" ∧ row.Discovered_Website = url := by
    intro url
    simp only [shouldSkipUrl, decide_eq_true_eq, loadedSuccessUrls, List.mem_map,
      List.mem_filter, Bool.and_eq_true, beq_iff_eq, bne_iff_ne]
    constructor
    · rintro ⟨row, ⟨hrow, hs, hne⟩, heq⟩
      exact ⟨row, hrow, hs, hne, heq⟩
    · rintro ⟨row, hrow, hs, hne, heq⟩
      exact ⟨row, ⟨hrow, hs, hne⟩, heq⟩
  have hud : ∀ ud : UrlData, ud ∈ loadUrlsToProcess rows ↔
      ∃ row, row ∈ rows ∧ row.Search_Status = "WEBSITE_DISCOVERED" ∧
        row.Discovered_Website ≠ "" ∧
        shouldSkipUrl rows row.Discovered_Website = false ∧
        ud = { url := row.Discovered_Website, companyName := row.Company_Name } := by
    intro ud
    simp only [loadUrlsToProcess, List.mem_map, List.mem_filter, Bool.and_eq_true,
      beq_iff_eq, bne_iff_ne, Bool.not_eq_true']
    constructor
    · rintro ⟨row, ⟨hrow, ⟨hss, hne⟩, hsk⟩, heq⟩
      exact ⟨row, hrow, hss, hne, hsk, heq.symm⟩
    · rintro ⟨row, hrow, hss, hne, hsk, heq⟩
      exact ⟨row, ⟨hrow, ⟨hss, hne⟩, hsk⟩, heq.symm⟩
  refine ⟨?_, ?_, ?_⟩
  · intro url hurl
    rw [hmem url]
    constructor
    · rintro ⟨row, hrow, hs, _, heq⟩
      exact ⟨row, hrow, hs, heq⟩
    · rintro ⟨row, hrow, hs, heq⟩
      exact ⟨row, hrow, hs, heq ▸ hurl, heq⟩
  · intro row hrow hs hne ud hudmem hcon
    obtain ⟨row', hrow', hss', hne', hsk', hudeq⟩ := (hud ud).1 hudmem
    have hskip : shouldSkipUrl rows row'.Discovered_Website = true := by
      apply (hmem _).2
      refine ⟨row, hrow, hs, hne, ?_⟩
      rw [← hcon, hudeq]
    rw [hsk'] at hskip
    exact Bool.false_ne_true hskip
  · intro row hrow hss hne hfs hnone
    have hskf : shouldSkipUrl rows row.Discovered_Website = false := by
      rw [Bool.eq_false_iff]
      intro hsk
      obtain ⟨row', hrow', hs', _, heq'⟩ := (hmem _).1 hsk
      exact hnone ⟨row', hrow', hs', heq'⟩
    exact ⟨{ url := row.Discovered_Website, companyName := row.Company_Name },
      (hud _).2 ⟨row, hrow, hss, hne, hskf, rfl⟩, rfl⟩

/-- Witness for the amended C5 on a two-row resumed run: the previously
successful URL is skipped and never handed to capture, the previously failed
URL is re-attempted. -/
theorem c5_skip_on_success_witness :
    ("https://done.example" : String) ≠ "" ∧
    shouldSkipUrl c5rows "https://done.example" = true ∧
    (∀ ud ∈ loadUrlsToProcess c5rows, ud.url ≠ "https://done.example") ∧
    (∃ ud ∈ loadUrlsToProcess c5rows, ud.url = "https://retry.example") :=
  ⟨by decide,
    ((c5_skip_on_success c5rows).1 "https://done.example" (by decide)).2
      ⟨c5successRow, by decide, by decide, by decide⟩,
    (c5_skip_on_success c5rows).2.1 c5successRow (by decide) (by decide) (by decide),
    (c5_skip_on_success c5rows).2.2 c5failedRow (by decide) (by decide) (by decide)
      (by decide) (by decide)⟩

/-- Claim C6 exhibit: one non-skipped target processed at concurrency one
yields two accumulated results, not one — `processUrl` pushes its result into
the shared array and the chunk loop then pushes the same `chunkResults`
again — so the summary counts the lone successful target twice. -/
theorem c6_duplicate_results :
    (processUrlsConcurrently c6capture 1 [c6target]).length = 2 ∧
    successfulCount (processUrlsConcurrently c6capture 1 [c6target]) = 2 := by
  have h0 : chunksOf 1 ([] : List UrlData) = [] := by
    rw [chunksOf]
    simp
  have h1 : chunksOf 1 [c6target] = [[c6target]] := by
    rw [chunksOf]
    simp [h0]
  constructor
  · simp [processUrlsConcurrently, h1]
  · simp [processUrlsConcurrently, h1, successfulCount, c6capture]

/-- Claim C8 counterexample: flushing a result whose URL has no row in the
store leaves the store without any record for that URL — `updateCsvProgress`
only mutates existing rows and never appends. -/
theorem c8_flush_counterexample :
    updateCsvProgress [c8orphanResult] [] = [] ∧
    (updateCsvProgress [c8orphanResult] []).filter
      (fun row => row.Discovered_Website == "https://orphan.example") = [] := by
  exact ⟨rfl, rfl⟩

/-- Claim C8 as amended: flushing merges each result into the existing row
with the same URL — overwriting the seven screenshot columns with the
result's status, section counts, error message, load time, retry count and
timestamp while leaving all other columns of the row unchanged — rows with no
matching result are unchanged, no rows are added or removed, and results
whose URL matches no existing row are dropped. -/
theorem c8_flush_merges (results : List ScreenshotResult) (rows : List CsvRow)
    (i : Nat) (row : CsvRow) (hrow : rows[i]? = some row) :
    (updateCsvProgress results rows).length = rows.length ∧
    (lastResultFor results row.Discovered_Website = none →
      (updateCsvProgress results rows)[i]? = some row) ∧
    (∀ res, lastResultFor results row.Discovered_Website = some res →
      ∃ row', (updateCsvProgress results rows)[i]? = some row' ∧
        row'.Discovered_Website = row.Discovered_Website ∧
        row'.Screenshot_Status = statusText res.status ∧
        row'.Desktop_Sections = toString res.desktopSections ∧
        row'.Mobile_Sections = toString res.mobileSections ∧
        row'.Screenshot_Error = jsOr res.errorMessage "" ∧
        row'.Load_Time_MS = toString res.loadTimeMs ∧
        row'.Screenshot_Retry_Count = toString res.retryCount ∧
        row'.Screenshot_Timestamp = res.timestamp ∧
        row'.Company_Name = row.Company_Name ∧
        row'.City = row.City ∧
        row'.Original_URL = row.Original_URL ∧
        row'.Search_Status = row.Search_Status) := by
  refine ⟨by simp [updateCsvProgress], ?_, ?_⟩
  · intro hnone
    simp [updateCsvProgress, List.getElem?_map, hrow, hnone]
  · intro res hres
    refine ⟨updateRow row res, ?_, rfl, rfl, rfl, rfl, rfl, rfl, rfl, rfl, rfl, rfl,
      rfl, rfl⟩
    simp [updateCsvProgress, List.getElem?_map, hrow, hres]

/-- Witness for the amended C8: flushing a fresh `FAILED` result over its
matching `PENDING` row rewrites the row's screenshot columns and keeps its
identity columns. -/
theorem c8_flush_merges_witness :
    ([c8row] : List CsvRow)[0]? = some c8row ∧
    ((updateCsvProgress [c8matchResult] [c8row]).length = ([c8row] : List CsvRow).length ∧
    (lastResultFor [c8matchResult] c8row.Discovered_Website = none →
      (updateCsvProgress [c8matchResult] [c8row])[0]? = some c8row) ∧
    (∀ res, lastResultFor [c8matchResult] c8row.Discovered_Website = some res →
      ∃ row', (updateCsvProgress [c8matchResult] [c8row])[0]? = some row' ∧
        row'.Discovered_Website = c8row.Discovered_Website ∧
        row'.Screenshot_Status = statusText res.status ∧
        row'.Desktop_Sections = toString res.desktopSections ∧
        row'.Mobile_Sections = toString res.mobileSections ∧
        row'.Screenshot_Error = jsOr res.errorMessage "" ∧
        row'.Load_Time_MS = toString res.loadTimeMs ∧
        row'.Screenshot_Retry_Count = toString res.retryCount ∧
        row'.Screenshot_Timestamp = res.timestamp ∧
        row'.Company_Name = c8row.Company_Name ∧
        row'.City = c8row.City ∧
        row'.Original_URL = c8row.Original_URL ∧
        row'.Search_Status = c8row.Search_Status)) :=
  ⟨by decide, c8_flush_merges [c8matchResult] [c8row] 0 c8row (by decide)⟩

end WebEval
